import Mathlib

/-!
Shallow embedding of `src/main.rs` of the deepbookv3-client-sample repository:
a client pipeline that builds a programmable transaction (a deepbook swap whose
three result coins are transferred back to the sender), resolves gas coins,
assembles the transaction payload, signs it under the sui-transaction intent
domain, and submits it.

Pure data and functions mirror the Rust code and the sui-sdk constructors it
calls; network calls are modelled by passing the collaborator responses in as
explicit inputs and recording the calls the pipeline issues as data.
Rust panics (`unwrap`, `assert!`) are modelled by `Option`/an explicit
`panicked` outcome; machine integers stay well below 2^64 here, so `Nat` is
used directly.
-/

namespace Spec2Proof

/-! ## Ledger-side data model -/

/-- Object identifier (Rust `ObjectID`, a 32-byte id, modelled as `Nat`). -/
abbrev ObjectID := Nat

/-- Account address (Rust `SuiAddress`, modelled as `Nat`). -/
abbrev SuiAddress := Nat

/-- Object digest (modelled as `Nat`). -/
abbrev Digest := Nat

/-- Rust `ObjectRef = (ObjectID, SequenceNumber, ObjectDigest)`: a
version-stamped reference to an owned object. -/
structure ObjectRef where
  id : ObjectID
  version : Nat
  digest : Digest
deriving DecidableEq, Repr

/-- The relevant fields of an `rpc_types::Coin` returned by
`coin_read_api().get_coins`. -/
structure Coin where
  coin_object_id : ObjectID
  version : Nat
  digest : Digest
deriving DecidableEq, Repr

/-- `Coin::object_ref()`. -/
def Coin.object_ref (c : Coin) : ObjectRef :=
  ⟨c.coin_object_id, c.version, c.digest⟩

/-! ## Programmable-transaction data model (sui-sdk `transaction` types) -/

/-- Rust enum `Argument`: a handle naming a transaction input, the gas coin,
or the (nested) result of an earlier command. -/
inductive Argument where
  | gasCoin
  | input (n : Nat)
  | result (n : Nat)
  | nestedResult (n i : Nat)
deriving DecidableEq, Repr

/-- Rust enum `CallArg`: a registered transaction input, either pure bytes
or an object reference. -/
inductive CallArg where
  | pureBytes (bytes : List Nat)
  | object (id : ObjectID)
deriving DecidableEq, Repr

/-- Rust enum `Command`: one step of a programmable transaction. -/
inductive Command where
  | moveCall (pkg mdl fn : String) (typeArgs : List String) (args : List Argument)
  | transferObjects (args : List Argument) (recipient : Argument)
  | splitCoins (coin : Argument) (amounts : List Argument)
  | mergeCoins (dest : Argument) (sources : List Argument)
deriving DecidableEq, Repr

/-- The argument handles embedded in a command (for `transferObjects` this
includes the recipient handle). -/
def Command.argList : Command → List Argument
  | .moveCall _ _ _ _ args => args
  | .transferObjects args r => args ++ [r]
  | .splitCoins c amounts => c :: amounts
  | .mergeCoins d sources => d :: sources

/-- Whether a command is a `TransferObjects` command. -/
def Command.isTransferObjects : Command → Bool
  | .transferObjects _ _ => true
  | _ => false

/-- Rust `ProgrammableTransaction { inputs, commands }`: the finished command
graph together with its registered inputs. -/
structure ProgrammableTransaction where
  inputs : List CallArg
  commands : List Command
deriving DecidableEq, Repr

/-- Does a result-referencing argument handle only look at commands with a
strictly smaller index than `i`? Literal and input handles are unconstrained. -/
def Argument.refsBefore (i : Nat) : Argument → Bool
  | .result n => n < i
  | .nestedResult n _ => n < i
  | _ => true

/-- The backward-reference invariant on a command sequence: every result
handle embedded in command `i` references a command at a strictly smaller
index. -/
def graphWellFormed (cmds : List Command) : Bool :=
  cmds.enum.all (fun p => p.2.argList.all (fun a => a.refsBefore p.1))

/-! ## The command graph builder (sui-sdk `ProgrammableTransactionBuilder`)

The builder is not part of this repository; it is embedded here with the
behavior its call sites in `src/main.rs` rely on: appending never fails
(`transfer_args` returns unit and `finish` returns the accumulated
`ProgrammableTransaction`), inputs are deduplicated by value, and each
appended command's handle is its index at the time of the append. -/

/-- Builder state: registered inputs and the ordered commands so far. -/
structure PTB where
  inputs : List CallArg
  commands : List Command
deriving DecidableEq, Repr

/-- `ProgrammableTransactionBuilder::new()`. -/
def PTB.new : PTB := ⟨[], []⟩

/-- Register a pure input, deduplicated by value; returns the input handle. -/
def PTB.pureInput (ptb : PTB) (bytes : List Nat) : PTB × Argument :=
  match ptb.inputs.findIdx? (· = CallArg.pureBytes bytes) with
  | some i => (ptb, .input i)
  | none =>
      ({ ptb with inputs := ptb.inputs ++ [CallArg.pureBytes bytes] },
       .input ptb.inputs.length)

/-- Register an object input, deduplicated by id; returns the input handle. -/
def PTB.objInput (ptb : PTB) (id : ObjectID) : PTB × Argument :=
  match ptb.inputs.findIdx? (· = CallArg.object id) with
  | some i => (ptb, .input i)
  | none =>
      ({ ptb with inputs := ptb.inputs ++ [CallArg.object id] },
       .input ptb.inputs.length)

/-- Append one command; the returned handle is the result of the command just
appended (its index is the length of the sequence before the push). -/
def PTB.pushCommand (ptb : PTB) (c : Command) : PTB × Argument :=
  ({ ptb with commands := ptb.commands ++ [c] }, .result ptb.commands.length)

/-- Encoding of an address as pure-input bytes. -/
def encodeAddress (a : SuiAddress) : List Nat := [a]

/-- `ProgrammableTransactionBuilder::transfer_args(recipient, args)` as called
at src/main.rs:130-133: registers the recipient as a pure input and appends a
single `TransferObjects` command carrying exactly the given argument handles.
It validates nothing about `args` and has no failure channel (it returns unit
in Rust). -/
def PTB.transfer_args (ptb : PTB) (recipient : SuiAddress) (args : List Argument) : PTB :=
  let pr := ptb.pureInput (encodeAddress recipient)
  (pr.1.pushCommand (Command.transferObjects args pr.2)).1

/-- `ProgrammableTransactionBuilder::finish()` (consumes the builder in Rust):
the finished graph is exactly the accumulated inputs and commands. -/
def PTB.finish (ptb : PTB) : ProgrammableTransaction :=
  ⟨ptb.inputs, ptb.commands⟩

/-- Appending a whole list of commands in order (helper for stating that
`finish` returns the append-order sequence). -/
def PTB.appendAll (ptb : PTB) (cs : List Command) : PTB :=
  cs.foldl (fun b c => (b.pushCommand c).1) ptb

/-! ## Transaction payload (sui-sdk `TransactionData`) -/

/-- Rust `GasData { payment, owner, price, budget }`. -/
structure GasData where
  payment : List ObjectRef
  owner : SuiAddress
  price : Nat
  budget : Nat
deriving DecidableEq, Repr

/-- Rust `TransactionExpiration`; `main` always leaves it `None`. -/
inductive TransactionExpiration where
  | noExpiration
deriving DecidableEq, Repr

/-- Rust `TransactionKind` as used here: a programmable transaction. -/
inductive TransactionKind where
  | programmable (pt : ProgrammableTransaction)
deriving DecidableEq, Repr

/-- Rust `TransactionData` (V1 layout): the immutable unit that gets signed. -/
structure TransactionData where
  kind : TransactionKind
  sender : SuiAddress
  gasData : GasData
  expiration : TransactionExpiration
deriving DecidableEq, Repr

/-- `TransactionData::new_programmable(sender, gas_payment, pt, gas_budget,
gas_price)` as called at src/main.rs:155-156: an infallible constructor (its
call site binds the value directly, with no error handling) that stores the
programmable transaction as the kind and the gas parameters verbatim, with
the sender as gas owner and no expiration. -/
def TransactionData.new_programmable (sender : SuiAddress) (gasPayment : List ObjectRef)
    (pt : ProgrammableTransaction) (gasBudget gasPrice : Nat) : TransactionData :=
  { kind := .programmable pt
    sender := sender
    gasData := { payment := gasPayment, owner := sender, price := gasPrice, budget := gasBudget }
    expiration := .noExpiration }

/-! ## Byte encoding (BCS serialization, modelled structurally)

A structural byte encoding of the payload, standing for the BCS bytes the
SDK produces; equal values encode to equal byte strings. -/

/-- Encode a `Nat` scalar. -/
def encNat (n : Nat) : List Nat := [n]

/-- Encode a length-prefixed list. -/
def encList (f : α → List Nat) (xs : List α) : List Nat :=
  xs.length :: xs.foldr (fun a acc => f a ++ acc) []

/-- Encode a string as its character codes. -/
def encString (s : String) : List Nat :=
  encList (fun c => [Char.toNat c]) s.toList

/-- Encode an argument handle. -/
def Argument.enc : Argument → List Nat
  | .gasCoin => [0]
  | .input n => [1, n]
  | .result n => [2, n]
  | .nestedResult n i => [3, n, i]

/-- Encode a registered input. -/
def CallArg.enc : CallArg → List Nat
  | .pureBytes bs => 0 :: encList encNat bs
  | .object id => [1, id]

/-- Encode a command. -/
def Command.enc : Command → List Nat
  | .moveCall pkg mdl fn tys args =>
      0 :: (encString pkg ++ encString mdl ++ encString fn
        ++ encList encString tys ++ encList Argument.enc args)
  | .transferObjects args r => 1 :: (encList Argument.enc args ++ r.enc)
  | .splitCoins c amounts => 2 :: (c.enc ++ encList Argument.enc amounts)
  | .mergeCoins d sources => 3 :: (d.enc ++ encList Argument.enc sources)

/-- Encode an object reference. -/
def ObjectRef.enc (r : ObjectRef) : List Nat := [r.id, r.version, r.digest]

/-- Encode a programmable transaction. -/
def ProgrammableTransaction.enc (pt : ProgrammableTransaction) : List Nat :=
  encList CallArg.enc pt.inputs ++ encList Command.enc pt.commands

/-- Encode the gas data. -/
def GasData.enc (g : GasData) : List Nat :=
  encList ObjectRef.enc g.payment ++ [g.owner, g.price, g.budget]

/-- Encode the transaction kind. -/
def TransactionKind.enc : TransactionKind → List Nat
  | .programmable pt => 0 :: pt.enc

/-- Encode a whole transaction payload: the bytes that get hashed/signed. -/
def TransactionData.enc (td : TransactionData) : List Nat :=
  td.kind.enc ++ [td.sender] ++ td.gasData.enc ++ [0]

/-! ## Intent-domain signing (shared_crypto intent, sui_keys sign_secure) -/

/-- Rust `Intent { scope, version, app_id }` (shared_crypto): the
domain-separation tag mixed into signed data. -/
structure Intent where
  scope : Nat
  version : Nat
  appId : Nat
deriving DecidableEq, Repr

/-- `Intent::sui_transaction()`: scope `TransactionData` (0), version `V0`
(0), app id `Sui` (0). -/
def Intent.sui_transaction : Intent := ⟨0, 0, 0⟩

/-- Rust `IntentMessage { intent, value }`: the payload scoped under a
domain tag; this, not the raw payload, is what gets serialized and signed. -/
structure IntentMessage where
  intent : Intent
  value : TransactionData
deriving DecidableEq, Repr

/-- Encode the intent tag (three bytes). -/
def Intent.enc (i : Intent) : List Nat := [i.scope, i.version, i.appId]

/-- Encode an intent message: the intent tag bytes followed by the payload
bytes. -/
def IntentMessage.enc (m : IntentMessage) : List Nat :=
  m.intent.enc ++ m.value.enc

/-- A produced signature, carrying the exact byte string it signs over. -/
structure Signature where
  signedBytes : List Nat
deriving DecidableEq, Repr

/-- Modelled from the spec: the Key/Signing Service collaborator
(`sign(payload, intentDomain) -> signature`, spec section 6) backing
`keystore.sign_secure(&sender, &tx_data, intent)` at src/main.rs:83 is not
part of this repository; per the spec, signing is scoped to the given
message-domain tag, i.e. the signature is over the intent-tagged message
bytes. -/
def sign_secure (_sender : SuiAddress) (txData : TransactionData) (intent : Intent) : Signature :=
  ⟨(IntentMessage.mk intent txData).enc⟩

/-- The signature produced inside `sign_and_execute` (src/main.rs:82-83): it
always passes `Intent::sui_transaction()` as the domain tag. -/
def sign_and_execute_signature (sender : SuiAddress) (txData : TransactionData) : Signature :=
  sign_secure sender txData Intent.sui_transaction

/-! ## Submission outcome handling (`sign_and_execute`, src/main.rs:85-102) -/

/-- The relevant field of the `SuiTransactionBlockResponse` the quorum driver
returns: `confirmed_local_execution` is `none` when the network sent no local
confirmation flag. -/
structure SuiTransactionBlockResponse where
  confirmed_local_execution : Option Bool
deriving DecidableEq, Repr

/-- What `sign_and_execute` does after the submission call returns: either
returns `Ok(())` or aborts by panic (Rust `assert!`). -/
inductive DriverOutcome where
  | ok
  | panicked (msg : String)
deriving DecidableEq, Repr

/-- The confirmation-handling tail of `sign_and_execute` (src/main.rs:94-102):
`assert!(response.confirmed_local_execution.unwrap_or(false), "Transaction
execution failed")` — success exactly when the flag is `Some(true)`; both
`Some(false)` and `None` hit the same assert with the same message. -/
def sign_and_execute_outcome (resp : SuiTransactionBlockResponse) : DriverOutcome :=
  if resp.confirmed_local_execution.getD false then .ok
  else .panicked "Transaction execution failed"

/-! ## Resource resolution -/

/-- `get_gas_coin` (src/main.rs:67-74): takes the first coin of the query
response via `.into_iter().next().unwrap()`; the result is `none` when the
list is empty, modelling the untyped `unwrap` panic (the function has no
tagged error for the empty case). -/
def get_gas_coin (coins : List Coin) : Option ObjectRef :=
  coins.head?.map Coin.object_ref

/-! ## The deepbook swap operation (external collaborator) -/

/-- `SwapParams` (deepbookv3 types); the `f64` amounts of the Rust struct are
modelled as integers at the ledger's 10^9 scaling (the claims under proof do
not depend on the numeric values). -/
structure SwapParams where
  pool_key : String
  amount : Nat
  deep_amount : Nat
  min_out : Nat
deriving DecidableEq, Repr

/-- The pool object the swap operates on (stands for the object resolved from
the pool key). -/
def poolObjectOf (_poolKey : String) : ObjectID := 0

/-- Modelled from the spec: deepbookv3's `swap_exact_base_for_quote` (the
Exchange Operation Library, spec sections 4.2 and 6) is not part of this
repository. Per the spec it registers its inputs as transaction inputs,
appends its call into the builder as commands (no transfer primitive), and
declares exactly three ordered outputs — base residual, quote residual,
deep/fee residual — returned as result handles in that declared order. -/
def swap_exact_base_for_quote (ptb : PTB) (params : SwapParams) :
    PTB × (Argument × Argument × Argument) :=
  let p1 := ptb.objInput (poolObjectOf params.pool_key)
  let p2 := p1.1.pureInput (encNat params.amount)
  let p3 := p2.1.pureInput (encNat params.deep_amount)
  let p4 := p3.1.pureInput (encNat params.min_out)
  let idx := p4.1.commands.length
  let p5 := p4.1.pushCommand
    (Command.moveCall "deepbook" "pool" "swap_exact_base_for_quote"
      ["BaseAsset", "QuoteAsset"] [p1.2, p2.2, p3.2, p4.2])
  (p5.1, (.nestedResult idx 0, .nestedResult idx 1, .nestedResult idx 2))

/-! ## The `main` pipeline (src/main.rs:105-164) -/

/-- The hardcoded sender address (src/main.rs:40). -/
def mainSender : SuiAddress :=
  0x1ae20bf50afb24a494a7a81012cafde1a657a1e8095122c89d3a840a8ba881bf

/-- The swap parameters `main` passes (src/main.rs:121-126); amounts at 10^9
scaling of the Rust float literals 1.0, 5.0, 0.1. -/
def mainSwapParams : SwapParams :=
  ⟨"SUI_USDC", 1000000000, 5000000000, 100000000⟩

/-- The builder state and the three swap result handles after the swap call
(src/main.rs:117-128). -/
def mainAfterSwap : PTB × (Argument × Argument × Argument) :=
  swap_exact_base_for_quote PTB.new mainSwapParams

/-- The three swap outputs `(base_coin_result, quote_coin_result,
deep_coin_result)` in the order the operation declares them. -/
def mainSwapResults : List Argument :=
  [mainAfterSwap.2.1, mainAfterSwap.2.2.1, mainAfterSwap.2.2.2]

/-- The builder after `ptb.transfer_args(sender, vec![base, quote, deep])`
(src/main.rs:130-133). -/
def mainPtbFinal : PTB :=
  mainAfterSwap.1.transfer_args mainSender mainSwapResults

/-- `let pt = ptb.finish()` (src/main.rs:148): the finished command graph of
the pipeline. -/
def mainPT : ProgrammableTransaction :=
  mainPtbFinal.finish

/-- The collaborator responses `main` consumes: the whitelist flag, the gas
coin query result, and the reference gas price. -/
structure MainInputs where
  is_whitelisted : Bool
  gasCoins : List Coin
  referenceGasPrice : Nat
deriving DecidableEq, Repr

/-- `let gas_budget = 50_000_000` (src/main.rs:146): a literal, fixed before
and independently of the command graph. -/
def mainGasBudget : Nat := 50000000

/-- `gas_object_refs` (src/main.rs:141-144): every returned coin mapped to
its `(id, version, digest)` triple, with no emptiness check. -/
def main_gas_object_refs (coins : List Coin) : List ObjectRef :=
  coins.map (fun c => ⟨c.coin_object_id, c.version, c.digest⟩)

/-- The assembly step of `main` with the command graph as a parameter,
mirroring src/main.rs:146-156 (the budget is the fixed literal, the price is
the network-reported reference gas price). -/
def mainAssemble (inp : MainInputs) (pt : ProgrammableTransaction) : TransactionData :=
  TransactionData.new_programmable mainSender (main_gas_object_refs inp.gasCoins) pt
    mainGasBudget inp.referenceGasPrice

/-- The transaction payload `main` assembles (src/main.rs:155-156) as a
function of the collaborator responses. -/
def main_tx_data (inp : MainInputs) : TransactionData :=
  mainAssemble inp mainPT

/-- The network calls `main` issues (in order) after client setup. -/
inductive NetworkCall where
  | get_whitelisted_status (poolKey : String)
  | get_coins (owner : SuiAddress) (coinType : Option String)
  | get_reference_gas_price
  | execute_transaction_block (txData : TransactionData)
deriving DecidableEq, Repr

/-- The ordered sequence of network calls `main` makes (src/main.rs:112-159):
whitelist query, gas-coin query, gas-price query, then — unconditionally, with
no branch on any of the responses — submission of the assembled transaction. -/
def mainNetworkCalls (inp : MainInputs) : List NetworkCall :=
  [.get_whitelisted_status "DEEP_SUI",
   .get_coins mainSender (some "0x2::sui::SUI"),
   .get_reference_gas_price,
   .execute_transaction_block (main_tx_data inp)]

/-- The debug line `main` prints for the whitelist flag (src/main.rs:115). -/
def mainWhitelistLine (inp : MainInputs) : String :=
  "Pool DEEP_SUI is whitelisted: " ++ toString inp.is_whitelisted

end Spec2Proof

namespace Spec2Proof

/-! ## Helper lemmas -/

/-- Appending a list of commands accumulates them in order after the existing
commands. -/
theorem PTB.appendAll_commands (ptb : PTB) (cs : List Command) :
    (ptb.appendAll cs).commands = ptb.commands ++ cs := by
  induction cs generalizing ptb with
  | nil => simp [PTB.appendAll]
  | cons c cs ih =>
      rw [show PTB.appendAll ptb (c :: cs) = PTB.appendAll (ptb.pushCommand c).1 cs from rfl, ih]
      simp [PTB.pushCommand]

/-! ## Claims -/

/-- Claim C1: the finished command graph of the swap-then-transfer pipeline in
`main` contains exactly one `TransferObjects` command, and that command's
argument list is exactly the swap operation's three declared outputs (base
residual, quote residual, deep residual) in the declared order, so no swap
output is dropped from the transfer. -/
theorem c1_transfer_covers_all_swap_outputs :
    mainPT.commands.filter Command.isTransferObjects
      = [Command.transferObjects mainSwapResults (Argument.input 4)] ∧
    mainSwapResults
      = [Argument.nestedResult 0 0, Argument.nestedResult 0 1, Argument.nestedResult 0 2] := by
  decide

/-- Claim C2 counterexample: `sign_and_execute` does not surface an absent
confirmation distinctly from a definite rejection — the response with no
confirmation flag and the response reporting failed local execution produce
the identical outcome, an untagged panic with one message. -/
theorem c2_counterexample_absent_equals_rejected :
    sign_and_execute_outcome ⟨none⟩ = sign_and_execute_outcome ⟨some false⟩ ∧
    sign_and_execute_outcome ⟨none⟩ = DriverOutcome.panicked "Transaction execution failed" :=
  ⟨rfl, rfl⟩

/-- Claim C2 amended: `sign_and_execute` succeeds exactly when the response
confirms local execution, and every other outcome — definite rejection
(`some false`) or absent confirmation (`none`) — is the same single panic, so
failure is never silently swallowed but ambiguous and definite failures are
not distinguished. -/
theorem c2_amended_success_iff_confirmed (resp : SuiTransactionBlockResponse) :
    (sign_and_execute_outcome resp = DriverOutcome.ok
      ↔ resp.confirmed_local_execution = some true) ∧
    (sign_and_execute_outcome resp = DriverOutcome.ok ∨
      sign_and_execute_outcome resp = DriverOutcome.panicked "Transaction execution failed") := by
  obtain ⟨c⟩ := resp
  cases c with
  | none => simp [sign_and_execute_outcome]
  | some b => cases b <;> simp [sign_and_execute_outcome]

/-- Claim C2 amended, witnessed at the confirming response. -/
theorem c2_amended_witness :
    (sign_and_execute_outcome ⟨some true⟩ = DriverOutcome.ok
      ↔ (⟨some true⟩ : SuiTransactionBlockResponse).confirmed_local_execution = some true) ∧
    (sign_and_execute_outcome ⟨some true⟩ = DriverOutcome.ok ∨
      sign_and_execute_outcome ⟨some true⟩
        = DriverOutcome.panicked "Transaction execution failed") :=
  c2_amended_success_iff_confirmed ⟨some true⟩

/-- Claim C3 counterexample: with zero matching coins, `get_gas_coin` yields
the untyped `unwrap` panic (`none`), not a tagged `NoResourceFound` error,
and the pipeline does not abort prior to transaction construction — `main`
still assembles the payload (with an empty gas payment). -/
theorem c3_counterexample_empty_coins_no_abort :
    get_gas_coin [] = none ∧
    (main_tx_data ⟨false, [], 0⟩).kind = TransactionKind.programmable mainPT ∧
    (main_tx_data ⟨false, [], 0⟩).gasData.payment = [] :=
  ⟨rfl, rfl, rfl⟩

/-- Claim C3 amended: for an owner holding zero matching coins, `get_gas_coin`
panics via `unwrap` (modelled `none`; there is no tagged error), and `main`'s
own coin query does not abort: the transaction is still constructed, with an
empty gas payment list. -/
theorem c3_amended_empty_coins (coins : List Coin) (b : Bool) (p : Nat)
    (h : coins = []) :
    get_gas_coin coins = none ∧
    (main_tx_data ⟨b, coins, p⟩).kind = TransactionKind.programmable mainPT ∧
    (main_tx_data ⟨b, coins, p⟩).gasData.payment = [] := by
  subst h
  exact ⟨rfl, rfl, rfl⟩

/-- Claim C3 amended, witnessed at the empty coin list. -/
theorem c3_amended_witness :
    ([] : List Coin) = [] ∧
    (get_gas_coin [] = none ∧
      (main_tx_data ⟨false, [], 0⟩).kind = TransactionKind.programmable mainPT ∧
      (main_tx_data ⟨false, [], 0⟩).gasData.payment = []) :=
  ⟨rfl, c3_amended_empty_coins [] false 0 rfl⟩

/-- Claim C4 counterexample: with an empty funding (gas coin) list, assembly
does not fail with `NoFundingResource` — it produces a payload whose gas
payment is empty — and a network call is still issued after assembly: the
pipeline's final network call is the submission of that very payload. -/
theorem c4_counterexample_empty_funding_still_submits :
    (mainAssemble ⟨false, [], 0⟩ mainPT).gasData.payment = [] ∧
    main_tx_data ⟨false, [], 0⟩ = mainAssemble ⟨false, [], 0⟩ mainPT ∧
    (mainNetworkCalls ⟨false, [], 0⟩).getLast?
      = some (NetworkCall.execute_transaction_block (main_tx_data ⟨false, [], 0⟩)) :=
  ⟨rfl, rfl, rfl⟩

/-- Claim C4 amended: assembly is infallible — whenever the gas coin list is
empty it still produces a payload (with empty gas payment), and the pipeline
proceeds to submit that payload over the network. -/
theorem c4_amended_empty_funding (inp : MainInputs) (h : inp.gasCoins = []) :
    (main_tx_data inp).gasData.payment = [] ∧
    NetworkCall.execute_transaction_block (main_tx_data inp) ∈ mainNetworkCalls inp := by
  constructor
  · show main_gas_object_refs inp.gasCoins = []
    rw [h]
    rfl
  · simp [mainNetworkCalls]

/-- Claim C4 amended, witnessed at the empty coin list. -/
theorem c4_amended_witness :
    (⟨false, [], 0⟩ : MainInputs).gasCoins = [] ∧
    ((main_tx_data ⟨false, [], 0⟩).gasData.payment = [] ∧
      NetworkCall.execute_transaction_block (main_tx_data ⟨false, [], 0⟩)
        ∈ mainNetworkCalls ⟨false, [], 0⟩) :=
  ⟨rfl, c4_amended_empty_funding ⟨false, [], 0⟩ rfl⟩

/-- Claim C5 counterexample: the builder performs no construction-time check —
`transfer_args` accepts a forward result handle (`Result 5` in an otherwise
empty builder) without any `ConstructionError`, and `finish` returns the
ill-formed graph. -/
theorem c5_counterexample_forward_handle_accepted :
    ((PTB.new.transfer_args mainSender [Argument.result 5]).finish).commands
      = [Command.transferObjects [Argument.result 5] (Argument.input 0)] ∧
    graphWellFormed ((PTB.new.transfer_args mainSender [Argument.result 5]).finish).commands
      = false := by
  decide

/-- Claim C5 amended: the command graph `main` builds satisfies the
backward-reference invariant (every result handle in command i references a
command of strictly smaller index), and every handle the builder returns for
an append references exactly the command just appended; but the builder
itself validates nothing at construction time and defines no
`ConstructionError`. -/
theorem c5_amended_main_graph_well_formed :
    graphWellFormed mainPT.commands = true ∧
    ∀ (ptb : PTB) (c : Command), (ptb.pushCommand c).2 = Argument.result ptb.commands.length :=
  ⟨by decide, fun _ _ => rfl⟩

/-- Claim C6: payload assembly is deterministic — two invocations of
`TransactionData::new_programmable` with equal sender, gas references,
command graph, budget and price produce byte-identical payloads. -/
theorem c6_assemble_deterministic (s1 s2 : SuiAddress) (g1 g2 : List ObjectRef)
    (pt1 pt2 : ProgrammableTransaction) (b1 b2 p1 p2 : Nat)
    (hs : s1 = s2) (hg : g1 = g2) (hpt : pt1 = pt2) (hb : b1 = b2) (hp : p1 = p2) :
    (TransactionData.new_programmable s1 g1 pt1 b1 p1).enc
      = (TransactionData.new_programmable s2 g2 pt2 b2 p2).enc := by
  subst hs hg hpt hb hp
  rfl

/-- Claim C6, witnessed at concrete equal inputs. -/
theorem c6_witness :
    (0 : SuiAddress) = 0 ∧ ([] : List ObjectRef) = [] ∧
    (⟨[], []⟩ : ProgrammableTransaction) = ⟨[], []⟩ ∧ (1 : Nat) = 1 ∧ (2 : Nat) = 2 ∧
    (TransactionData.new_programmable 0 [] ⟨[], []⟩ 1 2).enc
      = (TransactionData.new_programmable 0 [] ⟨[], []⟩ 1 2).enc :=
  ⟨rfl, rfl, rfl, rfl, rfl,
    c6_assemble_deterministic 0 0 [] [] ⟨[], []⟩ ⟨[], []⟩ 1 1 2 2 rfl rfl rfl rfl rfl⟩

/-- Claim C7: every signature the core produces is over the payload scoped to
the sui-transaction intent domain tag — the signed bytes are the three-byte
intent tag followed by the payload bytes, and are never the raw, untagged
payload bytes. -/
theorem c7_signature_always_intent_tagged (s : SuiAddress) (td : TransactionData) :
    (sign_and_execute_signature s td).signedBytes
      = Intent.enc Intent.sui_transaction ++ td.enc ∧
    (sign_and_execute_signature s td).signedBytes ≠ td.enc := by
  refine ⟨rfl, ?_⟩
  intro h
  have hl := congrArg List.length h
  simp [sign_and_execute_signature, sign_secure, IntentMessage.enc, Intent.enc] at hl
  omega

/-- Claim C7, witnessed at a concrete payload. -/
theorem c7_witness :
    (sign_and_execute_signature 0 (TransactionData.new_programmable 0 [] ⟨[], []⟩ 1 2)).signedBytes
      = Intent.enc Intent.sui_transaction ++ (TransactionData.new_programmable 0 [] ⟨[], []⟩ 1 2).enc ∧
    (sign_and_execute_signature 0 (TransactionData.new_programmable 0 [] ⟨[], []⟩ 1 2)).signedBytes
      ≠ (TransactionData.new_programmable 0 [] ⟨[], []⟩ 1 2).enc :=
  c7_signature_always_intent_tagged 0 (TransactionData.new_programmable 0 [] ⟨[], []⟩ 1 2)

/-- Claim C8: the fee budget attached to the transaction is the fixed literal
50,000,000 — independent of the command graph's contents — while the unit
price attached equals the network-reported reference gas price. -/
theorem c8_budget_constant_price_from_network (inp : MainInputs)
    (pt pt2 : ProgrammableTransaction) :
    (mainAssemble inp pt).gasData.budget = 50000000 ∧
    (mainAssemble inp pt).gasData.budget = (mainAssemble inp pt2).gasData.budget ∧
    (mainAssemble inp pt).gasData.price = inp.referenceGasPrice ∧
    main_tx_data inp = mainAssemble inp mainPT :=
  ⟨rfl, rfl, rfl, rfl⟩

/-- Claim C9: for any sequence of appended commands, `finish` returns exactly
that sequence in append order, and payload assembly embeds the finished graph
unchanged — no later operation alters it. -/
theorem c9_finish_exact_append_order (cs : List Command) (s : SuiAddress)
    (refs : List ObjectRef) (b p : Nat) :
    ((PTB.new.appendAll cs).finish).commands = cs ∧
    (TransactionData.new_programmable s refs ((PTB.new.appendAll cs).finish) b p).kind
      = TransactionKind.programmable ((PTB.new.appendAll cs).finish) := by
  constructor
  · show (PTB.new.appendAll cs).commands = cs
    rw [PTB.appendAll_commands]
    rfl
  · rfl

/-- Claim C10: the assembled payload and the issued network calls are
independent of the whitelisted-status flag — two runs differing only in that
boolean build identical payloads and call sequences — while the flag does
reach the printed debug line, and only it. -/
theorem c10_payload_independent_of_whitelist (inp : MainInputs) (b1 b2 : Bool) :
    main_tx_data { inp with is_whitelisted := b1 }
      = main_tx_data { inp with is_whitelisted := b2 } ∧
    mainNetworkCalls { inp with is_whitelisted := b1 }
      = mainNetworkCalls { inp with is_whitelisted := b2 } ∧
    mainWhitelistLine { inp with is_whitelisted := true }
      ≠ mainWhitelistLine { inp with is_whitelisted := false } := by
  refine ⟨rfl, rfl, ?_⟩
  intro h
  have h2 : ("Pool DEEP_SUI is whitelisted: " ++ toString true)
      = ("Pool DEEP_SUI is whitelisted: " ++ toString false) := h
  exact absurd h2 (by decide)

/-- Claim C10, witnessed at concrete inputs. -/
theorem c10_witness :
    main_tx_data ⟨true, [], 0⟩ = main_tx_data ⟨false, [], 0⟩ ∧
    mainNetworkCalls ⟨true, [], 0⟩ = mainNetworkCalls ⟨false, [], 0⟩ ∧
    mainWhitelistLine ⟨true, [], 0⟩ ≠ mainWhitelistLine ⟨false, [], 0⟩ :=
  c10_payload_independent_of_whitelist ⟨true, [], 0⟩ true false

end Spec2Proof
